import Mathlib

/-!
# Verification of `dockertop` (src/src/main.rs)

Shallow embedding of the dockertop terminal dashboard.  The program is a
single Rust file; the embedding below translates, from the source:

* the data model (`Stats`, `ContainerSummary`, `ContainerStats`, `App`);
* the metric derivation (`calculate_cpu_usage`, `format_bytes`);
* the collector (`App::update_stats`), including its incremental rebuild of
  `self.containers` and every early-exit path (transport error, `.unwrap()`
  on an empty stream item, the `[0]` indexing of the names vector);
* the renderer `ui` as a pure function to a layout tree;
* the event/tick loop of `main`, as a step function over a trace of
  per-cycle environment outcomes, tracking whether the terminal-restore
  code at the end of `main` was reached.

Modelling conventions: `u64` is `Nat` with subtraction wrapped modulo `2^64`
(`wrapSub64`; an overflow-checked build would panic where release builds
wrap — either way no negative value is produced); `f64` arithmetic is
modelled with exact rationals `ℚ` (every division performed by the program
on the claimed inputs is exact in binary floating point, and `ℚ` division
by zero is `0`, a case the source guards against); Rust `format!("{:.2}")`
/ `"{:.1}"` rounding is round-half-to-even (`roundHalfEven`); a Rust panic
is modelled as an explicit `Failure.panic` outcome; fallible Docker calls
are `Except` values supplied by the environment.
-/

namespace Dockertop

/-- u64 subtraction as Rust release builds perform it: wrapping modulo `2^64`.
Overflow-checked builds would panic on underflow instead; in both cases no
negative value is ever produced. -/
def wrapSub64 (a b : Nat) : Nat :=
  (a % 2 ^ 64 + 2 ^ 64 - b % 2 ^ 64) % 2 ^ 64

/-- `bollard` `CpuUsage`: only the field the program reads. -/
structure CpuUsage where
  total_usage : Nat
  deriving DecidableEq

/-- `bollard` `CpuStats`: only the fields the program reads.
`system_cpu_usage` is optional in the wire format. -/
structure CpuStats where
  cpu_usage : CpuUsage
  system_cpu_usage : Option Nat
  deriving DecidableEq

/-- `bollard` `MemoryStats`: only the fields the program reads. -/
structure MemoryStats where
  usage : Option Nat
  limit : Option Nat
  deriving DecidableEq

/-- One raw stats snapshot (`bollard::container::Stats`), restricted to the
fields `calculate_cpu_usage` and `update_stats` read. -/
structure Stats where
  cpu_stats : CpuStats
  precpu_stats : CpuStats
  memory_stats : MemoryStats
  deriving DecidableEq

/-- One element of the `list_containers` response: the fields
`update_stats` reads.  All are optional in the wire format. -/
structure ContainerSummary where
  id : Option String
  names : Option (List String)
  status : Option String
  created : Option Int
  deriving DecidableEq

/-- The per-container record the app keeps (`struct ContainerStats`).
`cpu_usage` is the derived percentage (`f64` in the source, exact `ℚ` here). -/
structure ContainerStats where
  id : String
  name : String
  cpu_usage : ℚ
  memory_usage : Nat
  memory_limit : Nat
  status : String
  created : String
  deriving DecidableEq

/-- The application state (`struct App`). -/
structure App where
  containers : List ContainerStats
  selected_index : Nat
  should_quit : Bool
  deriving DecidableEq

/-- `App::new()`. -/
def App.new : App :=
  { containers := [], selected_index := 0, should_quit := false }

/-- `calculate_cpu_usage`: both deltas are unchecked u64 subtractions
(wrapping here); the system totals default to `0` when absent
(`unwrap_or(0)`); divides only under the `system_delta > 0` guard. -/
def calculate_cpu_usage (stats : Stats) : ℚ :=
  let cpu_delta :=
    wrapSub64 stats.cpu_stats.cpu_usage.total_usage
      stats.precpu_stats.cpu_usage.total_usage
  let system_delta :=
    wrapSub64 (stats.cpu_stats.system_cpu_usage.getD 0)
      (stats.precpu_stats.system_cpu_usage.getD 0)
  if 0 < system_delta then
    (cpu_delta : ℚ) / (system_delta : ℚ) * 100
  else
    0

/-- `str::trim_start_matches('/')`: removes every leading `'/'`. -/
def trim_start_matches_slash (s : String) : String :=
  String.mk (s.data.dropWhile fun c => c == '/')

/-- The name computation of `update_stats`:
`container.names.unwrap_or_default()[0].trim_start_matches('/')`.
`none` models the index-out-of-bounds panic of `[0]` on the empty vector
that `unwrap_or_default()` produces when the names list is absent. -/
def container_display_name (names : Option (List String)) : Option String :=
  match (names.getD []).head? with
  | some s => some (trim_start_matches_slash s)
  | none => none

/-- How a run of `update_stats` can abort: a propagated `anyhow` error
(carrying the `context` message) or a panic. -/
inductive Failure where
  | err (context : String)
  | panic (msg : String)
  deriving DecidableEq

/-- The environment's behaviour for one enumerated container: its summary
and the outcome of `docker.stats(&id, None).try_next()` (an error, or
`Ok(None)` — stream ended — or one snapshot). -/
structure FetchEnv where
  summary : ContainerSummary
  fetch : Except String (Option Stats)

/-- Building one `ContainerStats` record inside the `update_stats` loop
(name, derived CPU, memory defaults `0`/`1`, status/created defaults).
Fails only with the names-indexing panic. -/
def build_container_stats (id : String) (c : ContainerSummary) (stats : Stats) :
    Except Failure ContainerStats :=
  match container_display_name c.names with
  | none => .error (.panic "index out of bounds")
  | some nm =>
      .ok
        { id := id
          name := nm
          cpu_usage := calculate_cpu_usage stats
          memory_usage := stats.memory_stats.usage.getD 0
          memory_limit := stats.memory_stats.limit.getD 1
          status := c.status.getD ""
          created := (c.created.map toString).getD "" }

/-- The `for container in containers` loop of `update_stats`: pushes each
built record onto the accumulator (the freshly cleared `self.containers`),
skips entries without an id, and stops at the first failure, returning the
partially rebuilt list together with the failure. -/
def update_stats_loop (acc : List ContainerStats) :
    List FetchEnv → List ContainerStats × Option Failure
  | [] => (acc, none)
  | e :: rest =>
    match e.summary.id with
    | none => update_stats_loop acc rest
    | some id =>
      match e.fetch with
      | .error _ => (acc, some (.err "Failed to get container stats"))
      | .ok none => (acc, some (.panic "called Option::unwrap on a None value"))
      | .ok (some stats) =>
        match build_container_stats id e.summary stats with
        | .error f => (acc, some f)
        | .ok cs => update_stats_loop (acc ++ [cs]) rest

/-- `App::update_stats`: on a listing error the state is untouched and the
`context`-wrapped error propagates; otherwise `self.containers` is replaced
by a fresh vector and rebuilt entry by entry, so a mid-loop failure leaves
the partial new list in place.  `selected_index` and `should_quit` are
never touched. -/
def update_stats (app : App) (listRes : Except String (List FetchEnv)) :
    App × Option Failure :=
  match listRes with
  | .error _ => (app, some (.err "Failed to list containers"))
  | .ok envs =>
      let r := update_stats_loop [] envs
      ({ app with containers := r.1 }, r.2)

/-- Round-half-to-even on an exact rational, the rounding Rust's float
formatting applies at the requested precision.  Every value the program
formats is nonnegative. -/
def roundHalfEven (x : ℚ) : ℤ :=
  let f := ⌊x⌋
  if x - (f : ℚ) < 1 / 2 then f
  else if (1 / 2 : ℚ) < x - (f : ℚ) then f + 1
  else if f % 2 = 0 then f else f + 1

/-- The two right-hand digits of a two-decimal rendering. -/
def twoDigits (m : Nat) : String :=
  (if m < 10 then "0" else "") ++ toString m

/-- `format!("{:.2}", q)` for the nonnegative values this program formats. -/
def formatTwoDec (q : ℚ) : String :=
  let n := (roundHalfEven (q * 100)).toNat
  toString (n / 100) ++ "." ++ twoDigits (n % 100)

/-- `format!("{:.1}", q)` for the nonnegative values this program formats. -/
def formatOneDec (q : ℚ) : String :=
  let n := (roundHalfEven (q * 10)).toNat
  toString (n / 10) ++ "." ++ toString (n % 10)

/-- The unit names of `format_bytes` (`const UNITS`). -/
def UNITS : List String := ["B", "KB", "MB", "GB"]

/-- The `while size >= 1024.0 && unit_index < UNITS.len() - 1` loop of
`format_bytes`.  The guard `unit_index < 3` bounds the iteration count by
`3 - unit_index`, carried here as structural fuel (the program enters the
loop with `unit_index = 0` and fuel `3`). -/
def scaleLoopAux : Nat → ℚ → Nat → ℚ × Nat
  | 0, size, i => (size, i)
  | fuel + 1, size, i =>
      if 1024 ≤ size then scaleLoopAux fuel (size / 1024) (i + 1) else (size, i)

/-- `format_bytes`. -/
def format_bytes (bytes : Nat) : String :=
  let p := scaleLoopAux 3 (bytes : ℚ) 0
  formatTwoDec p.1 ++ " " ++ UNITS.getD p.2 ""

/-- Row colors of the list pane (`Color::Green` / `Red` / `Yellow`). -/
inductive Color where
  | green
  | red
  | yellow
  deriving DecidableEq

/-- The `match c.status.as_str()` styling in `ui`. -/
def status_color (s : String) : Color :=
  if s = "running" then .green else if s = "exited" then .red else .yellow

/-- `(c.memory_usage as f64 / c.memory_limit as f64) * 100.0`. -/
def memory_percent (c : ContainerStats) : ℚ :=
  (c.memory_usage : ℚ) / (c.memory_limit : ℚ) * 100

/-- One styled row of the list pane. -/
structure ListRow where
  text : String
  color : Color
  deriving DecidableEq

/-- The `ListItem` built for one container in `ui`. -/
def list_row (c : ContainerStats) : ListRow :=
  { text :=
      c.name ++ " [" ++ c.status ++ "] - CPU: " ++ formatOneDec c.cpu_usage ++
        "% | MEM: " ++ formatOneDec (memory_percent c) ++ "%"
    color := status_color c.status }

/-- The labeled lines of the detail pane for one container. -/
def detail_lines (c : ContainerStats) : List String :=
  ["Container: " ++ c.name,
   "Status: " ++ c.status,
   "CPU Usage: " ++ formatOneDec c.cpu_usage ++ "%",
   "Memory Usage: " ++ formatOneDec (memory_percent c) ++ "% (" ++
     format_bytes c.memory_usage ++ ")",
   "Created: " ++ c.created]

/-- The layout tree one call of `ui` paints: list rows, the highlighted
index handed to `ListState::select`, the detail pane (absent exactly when
`containers.get(selected_index)` is `None`), and the static help bar. -/
structure RenderTree where
  rows : List ListRow
  highlighted : Nat
  detail : Option (List String)
  help : List String
  deriving DecidableEq

/-- `fn ui`: a pure, total function of the application state. -/
def ui (app : App) : RenderTree :=
  { rows := app.containers.map list_row
    highlighted := app.selected_index
    detail := (app.containers[app.selected_index]?).map detail_lines
    help := ["q", ": Quit  ", "↑/↓", ": Navigate  ", "Enter", ": Select Container"] }

/-- The key codes the loop distinguishes; every other key is `other`. -/
inductive KeyCode where
  | q
  | up
  | down
  | other
  deriving DecidableEq

/-- The `match key.code` block of the event loop: `'q'` sets the quit flag,
Up decrements `selected_index` when positive, Down increments it when below
`containers.len().saturating_sub(1)` (`Nat` subtraction is saturating). -/
def applyKey (app : App) : KeyCode → App
  | .q => { app with should_quit := true }
  | .up =>
      if 0 < app.selected_index then
        { app with selected_index := app.selected_index - 1 }
      else app
  | .down =>
      if app.selected_index < app.containers.length - 1 then
        { app with selected_index := app.selected_index + 1 }
      else app
  | .other => app

/-- The environment's behaviour during one iteration of the event loop:
the outcome of `terminal.draw`, of `event::poll` (timeout already folded
in), of `event::read` (`none` = a non-key event), whether the tick interval
elapsed, and the Docker responses for `update_stats` if it elapsed. -/
structure Cycle where
  draw : Except String Unit
  poll : Except String Bool
  read : Except String (Option KeyCode)
  tick : Bool
  collect : Except String (List FetchEnv)

/-- Outcome of one loop iteration: continue with a new state, or abort
with a failure propagated out of `main` by `?` (or a panic). -/
inductive StepResult where
  | cont (app : App)
  | fail (f : Failure) (app : App)

/-- The input-polling half of one iteration
(`event::poll` / `event::read` / `match key.code`). -/
def handle_input (app : App) (c : Cycle) : StepResult :=
  match c.poll with
  | .error m => .fail (.err m) app
  | .ok false => .cont app
  | .ok true =>
    match c.read with
    | .error m => .fail (.err m) app
    | .ok none => .cont app
    | .ok (some k) => .cont (applyKey app k)

/-- The tick half of one iteration: run `update_stats` when due,
propagating its failure. -/
def handle_tick (app : App) (c : Cycle) : StepResult :=
  if c.tick then
    match update_stats app c.collect with
    | (app1, none) => .cont app1
    | (app1, some f) => .fail f app1
  else .cont app

/-- One full iteration of the loop body, in source order:
draw, then input handling, then the tick. -/
def loop_step (app : App) (c : Cycle) : StepResult :=
  match c.draw with
  | .error m => .fail (.err m) app
  | .ok _ =>
    match handle_input app c with
    | .fail f a => .fail f a
    | .cont a => handle_tick a c

/-- How a run of the loop ends: the `break` on `should_quit`, a propagated
failure, or the modelled trace of environment cycles ran out. -/
inductive RunOutcome where
  | quit (app : App)
  | failed (f : Failure) (app : App)
  | fuel (app : App)
  deriving DecidableEq

/-- Result of running `main`'s loop: the outcome, and whether control
reached the terminal-restore block after the loop (`disable_raw_mode`,
`LeaveAlternateScreen`, `DisableMouseCapture`). -/
structure RunResult where
  outcome : RunOutcome
  restored : Bool
  deriving DecidableEq

/-- The event/tick loop of `main` over a finite trace of cycles.  A `?`
failure returns from `main` immediately, so the restore block after the
loop is not executed on that path. -/
def run_loop : App → List Cycle → RunResult
  | app, [] => { outcome := .fuel app, restored := false }
  | app, c :: rest =>
    match loop_step app c with
    | .fail f a => { outcome := .failed f a, restored := false }
    | .cont a =>
        if a.should_quit then { outcome := .quit a, restored := true }
        else run_loop a rest

/-- The four mutating operations of the application state, as the spec
names them: `refresh` is `update_stats`, the other three are the key
handlers of the loop. -/
inductive AppOp where
  | refresh (listRes : Except String (List FetchEnv))
  | moveUp
  | moveDown
  | requestQuit

/-- Apply one state operation. -/
def applyOp (app : App) : AppOp → App
  | .refresh r => (update_stats app r).1
  | .moveUp => applyKey app .up
  | .moveDown => applyKey app .down
  | .requestQuit => applyKey app .q

/-- One produced `ContainerStats` record is accounted for by one entity of
the current poll cycle's listing: that entity has a resolvable id, its
fetch yielded a snapshot, and building the record from that snapshot
succeeded. -/
def entity_yields (e : FetchEnv) (c : ContainerStats) : Prop :=
  ∃ id stats, e.summary.id = some id ∧ e.fetch = .ok (some stats) ∧
    build_container_stats id e.summary stats = .ok c

/-! ## Concrete fixtures used by witnesses and counterexamples -/

/-- A quiet snapshot: all counters zero, memory fields absent. -/
def stats0 : Stats :=
  { cpu_stats := { cpu_usage := { total_usage := 0 }, system_cpu_usage := none }
    precpu_stats := { cpu_usage := { total_usage := 0 }, system_cpu_usage := none }
    memory_stats := { usage := none, limit := none } }

/-- A well-formed listing entry with one alias. -/
def mk_summary (i nm : String) : ContainerSummary :=
  { id := some i, names := some [nm], status := some "running", created := some 0 }

/-- A well-formed entity whose fetch yields the quiet snapshot. -/
def env_ok (i nm : String) : FetchEnv :=
  { summary := mk_summary i nm, fetch := .ok (some stats0) }

/-- An entity with a resolvable id but an absent names list. -/
def env_nameless : FetchEnv :=
  { summary := { id := some "c9", names := none, status := some "running", created := some 5 }
    fetch := .ok (some stats0) }

/-- A placeholder container record. -/
def dummy (nm : String) : ContainerStats :=
  { id := nm, name := nm, cpu_usage := 0, memory_usage := 0, memory_limit := 1
    status := "running", created := "" }

/-- A state with five containers and the last one selected. -/
def app_sel4 : App :=
  { containers := [dummy "a", dummy "b", dummy "c", dummy "d", dummy "e"]
    selected_index := 4, should_quit := false }

/-- A state with two containers and the first selected. -/
def app_two : App :=
  { containers := [dummy "a", dummy "b"], selected_index := 0, should_quit := false }

/-- A cycle in which nothing happens except a tick whose listing fails. -/
def cycle_collect_err : Cycle :=
  { draw := .ok (), poll := .ok false, read := .ok none, tick := true
    collect := .error "connection reset" }

/-- A cycle in which the user presses `q` and no tick is due. -/
def cycle_quit : Cycle :=
  { draw := .ok (), poll := .ok true, read := .ok (some .q), tick := false
    collect := .ok [] }

/-! ## Helper lemmas -/

/-- Wrapping u64 subtraction agrees with truncated subtraction when the
counters are in range and monotone. -/
theorem wrapSub64_of_le {a b : Nat} (hb : b ≤ a) (ha : a < 2 ^ 64) :
    wrapSub64 a b = a - b := by
  unfold wrapSub64
  have hb' : b < 2 ^ 64 := lt_of_le_of_lt hb ha
  rw [Nat.mod_eq_of_lt ha, Nat.mod_eq_of_lt hb']
  omega

/-- The padded fractional part always prints with exactly two digits. -/
theorem twoDigits_len : ∀ m, m < 100 → (twoDigits m).length = 2 := by decide

/-- The scaling loop of `format_bytes`, run from `unit_index = 0` with its
three remaining iterations: the chosen unit index is at most `3`, the
scaled value is the input divided by `1024 ^ index`, a choice below `GB`
leaves the scaled value `< 1024`, and a positive choice means the input
reached that unit's threshold. -/
theorem scaleLoop_spec (s : ℚ) :
    (scaleLoopAux 3 s 0).2 ≤ 3 ∧
    (scaleLoopAux 3 s 0).1 = s / 1024 ^ (scaleLoopAux 3 s 0).2 ∧
    ((scaleLoopAux 3 s 0).2 < 3 → (scaleLoopAux 3 s 0).1 < 1024) ∧
    (0 < (scaleLoopAux 3 s 0).2 → (1024 : ℚ) ^ (scaleLoopAux 3 s 0).2 ≤ s) := by
  simp only [scaleLoopAux]
  split_ifs with h1 h2 h3
  · refine ⟨le_refl 3, ?_, ?_, ?_⟩
    · rw [div_div, div_div]; norm_num
    · intro h; exact absurd h (lt_irrefl 3)
    · intro _
      rw [div_div] at h3
      have h4 := (le_div_iff₀ (by norm_num : (0:ℚ) < 1024 * 1024)).mp h3
      norm_num at h4 ⊢
      linarith
  · refine ⟨by norm_num, ?_, ?_, ?_⟩
    · rw [div_div]; norm_num
    · intro _
      push_neg at h3
      rw [div_div] at h3 ⊢
      norm_num at h3 ⊢
      linarith
    · intro _
      have h4 := (le_div_iff₀ (by norm_num : (0:ℚ) < 1024)).mp h2
      norm_num at h4 ⊢
      linarith
  · refine ⟨by norm_num, by norm_num, ?_, ?_⟩
    · intro _
      push_neg at h2
      exact h2
    · intro _
      norm_num
      linarith
  · refine ⟨by norm_num, by norm_num, ?_, ?_⟩
    · intro _
      push_neg at h1
      exact h1
    · intro h; exact absurd h (lt_irrefl 0)

/-! ## Claims -/

/-- C5: for monotonic, in-range counter snapshots, `calculate_cpu_usage`
returns `(cpuDelta / systemDelta) * 100` when the system delta is positive
and exactly `0` otherwise (the division happens only under that guard);
the result is never negative; and on the spec's example snapshot
(`previousCpu = 100`, `currentCpu = 150`, `previousSystem = 1000`,
`currentSystem = 1500`) it equals `10`. -/
theorem C5_cpu_derivation :
    (∀ (pt ct : Nat) (ps cs : Option Nat) (m : MemoryStats),
        pt ≤ ct → ct < 2 ^ 64 → ps.getD 0 ≤ cs.getD 0 → cs.getD 0 < 2 ^ 64 →
        calculate_cpu_usage ⟨⟨⟨ct⟩, cs⟩, ⟨⟨pt⟩, ps⟩, m⟩ =
          if 0 < cs.getD 0 - ps.getD 0 then
            ((ct - pt : Nat) : ℚ) / ((cs.getD 0 - ps.getD 0 : Nat) : ℚ) * 100
          else 0) ∧
    (∀ s : Stats, 0 ≤ calculate_cpu_usage s) ∧
    calculate_cpu_usage ⟨⟨⟨150⟩, some 1500⟩, ⟨⟨100⟩, some 1000⟩, ⟨none, none⟩⟩ = 10 := by
  refine ⟨?_, ?_, ?_⟩
  · intro pt ct ps cs m hcpu hct hsys hcs
    simp only [calculate_cpu_usage]
    rw [wrapSub64_of_le hcpu hct, wrapSub64_of_le hsys hcs]
  · intro s
    simp only [calculate_cpu_usage]
    split
    · positivity
    · exact le_refl 0
  · have h1 : wrapSub64 150 100 = 50 := by decide
    have h2 : wrapSub64 1500 1000 = 500 := by decide
    simp only [calculate_cpu_usage, Option.getD_some, h1, h2]
    norm_num

/-- Witness for C5: the general derivation rule applied at the spec's
example snapshot, with the monotonicity hypotheses discharged. -/
theorem C5_cpu_derivation_witness :
    calculate_cpu_usage ⟨⟨⟨150⟩, some 1500⟩, ⟨⟨100⟩, some 1000⟩, ⟨none, none⟩⟩ =
      ((50 : Nat) : ℚ) / ((500 : Nat) : ℚ) * 100 := by
  have h := C5_cpu_derivation.1 100 150 (some 1000) (some 1500) ⟨none, none⟩
    (by norm_num) (by norm_num) (by norm_num) (by norm_num)
  simpa using h

/-- C10: `calculate_cpu_usage` performs unchecked u64 subtractions, with
each system total defaulting to `0` when absent.  When the previous system
total is present (`1000`) but the current one is absent (so it defaults to
`0`), the subtraction underflows and wraps to `2^64 - 1000` — a huge
positive delta rather than the transient negative value `-1000` a caller
might expect — and the function then divides by it instead of taking the
`systemDelta = 0` branch. -/
theorem C10_system_counter_underflow :
    ((none : Option Nat).getD 0 < ((some 1000 : Option Nat)).getD 0) ∧
    wrapSub64 ((none : Option Nat).getD 0) (((some 1000 : Option Nat)).getD 0) =
      2 ^ 64 - 1000 ∧
    ((2 ^ 64 - 1000 : Nat) : ℤ) ≠ (0 : ℤ) - 1000 ∧
    calculate_cpu_usage ⟨⟨⟨50⟩, none⟩, ⟨⟨0⟩, some 1000⟩, ⟨none, none⟩⟩ =
      ((50 : Nat) : ℚ) / ((2 ^ 64 - 1000 : Nat) : ℚ) * 100 ∧
    0 < calculate_cpu_usage ⟨⟨⟨50⟩, none⟩, ⟨⟨0⟩, some 1000⟩, ⟨none, none⟩⟩ := by
  have hs : wrapSub64 0 1000 = 2 ^ 64 - 1000 := by decide
  have hc : wrapSub64 50 0 = 50 := by decide
  have hpos : (0 : ℚ) < ((2 ^ 64 - 1000 : Nat) : ℚ) := by norm_num
  refine ⟨by decide, hs, by decide, ?_, ?_⟩
  · simp only [calculate_cpu_usage, Option.getD_some, Option.getD_none, hs, hc]
    rw [if_pos (by norm_num)]
  · simp only [calculate_cpu_usage, Option.getD_some, Option.getD_none, hs, hc]
    rw [if_pos (by norm_num)]
    exact mul_pos (div_pos (by norm_num) hpos) (by norm_num)

/-- C6: `format_bytes` scales by `1024` to the largest unit in
{B, KB, MB, GB} keeping the scaled value below `1024` (the scaled value is
`bytes / 1024 ^ unitIndex`, below `1024` whenever the unit is not GB, and a
non-B unit is chosen only when the byte count reaches its threshold);
the output is the two-decimal rendering of the scaled value followed by the
unit name, always with exactly two digits after the point; the spec's five
examples hold, and a value beyond `1024` GB still renders in GB. -/
theorem C6_format_bytes_spec :
    (∀ bytes : Nat,
      (scaleLoopAux 3 (bytes : ℚ) 0).2 ≤ 3 ∧
      (scaleLoopAux 3 (bytes : ℚ) 0).1 =
        (bytes : ℚ) / 1024 ^ (scaleLoopAux 3 (bytes : ℚ) 0).2 ∧
      ((scaleLoopAux 3 (bytes : ℚ) 0).2 < 3 → (scaleLoopAux 3 (bytes : ℚ) 0).1 < 1024) ∧
      (0 < (scaleLoopAux 3 (bytes : ℚ) 0).2 →
        (1024 : ℚ) ^ (scaleLoopAux 3 (bytes : ℚ) 0).2 ≤ (bytes : ℚ)) ∧
      format_bytes bytes =
        formatTwoDec (scaleLoopAux 3 (bytes : ℚ) 0).1 ++ " " ++
          UNITS.getD (scaleLoopAux 3 (bytes : ℚ) 0).2 "" ∧
      (∃ k m : Nat, m < 100 ∧ (twoDigits m).length = 2 ∧
        format_bytes bytes =
          toString k ++ "." ++ twoDigits m ++ " " ++
            UNITS.getD (scaleLoopAux 3 (bytes : ℚ) 0).2 "")) ∧
    format_bytes 0 = "0.00 B" ∧
    format_bytes 1024 = "1.00 KB" ∧
    format_bytes 1536 = "1.50 KB" ∧
    format_bytes 1073741824 = "1.00 GB" ∧
    format_bytes 2097152 = "2.00 MB" ∧
    format_bytes (2 ^ 41) = "2048.00 GB" := by
  refine ⟨?_, ?_, ?_, ?_, ?_, ?_, ?_⟩
  · intro bytes
    obtain ⟨h1, h2, h3, h4⟩ := scaleLoop_spec (bytes : ℚ)
    refine ⟨h1, h2, h3, h4, rfl, ?_⟩
    exact ⟨(roundHalfEven ((scaleLoopAux 3 (bytes : ℚ) 0).1 * 100)).toNat / 100,
           (roundHalfEven ((scaleLoopAux 3 (bytes : ℚ) 0).1 * 100)).toNat % 100,
           Nat.mod_lt _ (by norm_num), twoDigits_len _ (Nat.mod_lt _ (by norm_num)), rfl⟩
  · norm_num [format_bytes, scaleLoopAux, formatTwoDec, roundHalfEven, UNITS, twoDigits]
    decide
  · norm_num [format_bytes, scaleLoopAux, formatTwoDec, roundHalfEven, UNITS, twoDigits]
    decide
  · norm_num [format_bytes, scaleLoopAux, formatTwoDec, roundHalfEven, UNITS, twoDigits]
    decide
  · norm_num [format_bytes, scaleLoopAux, formatTwoDec, roundHalfEven, UNITS, twoDigits]
    decide
  · norm_num [format_bytes, scaleLoopAux, formatTwoDec, roundHalfEven, UNITS, twoDigits]
    decide
  · norm_num [format_bytes, scaleLoopAux, formatTwoDec, roundHalfEven, UNITS, twoDigits]
    decide

/-- Witness for C6: at `1536` bytes the loop picks a unit below GB, so the
scaled value is below `1024`, and the unit is non-B, so the KB threshold
was reached. -/
theorem C6_format_bytes_spec_witness :
    (scaleLoopAux 3 ((1536 : Nat) : ℚ) 0).1 < 1024 ∧
    (1024 : ℚ) ^ (scaleLoopAux 3 ((1536 : Nat) : ℚ) 0).2 ≤ ((1536 : Nat) : ℚ) := by
  have h := C6_format_bytes_spec.1 1536
  have hu : (scaleLoopAux 3 ((1536 : Nat) : ℚ) 0).2 = 1 := by
    norm_num [scaleLoopAux]
  exact ⟨h.2.2.1 (by rw [hu]; norm_num), h.2.2.2.1 (by rw [hu]; norm_num)⟩

/-- C1 counterexample: `update_stats` performs no clamping.  Starting from
the five-container state with `selected_index = 4`, a successful refresh to
a two-container listing leaves `selected_index` at `4`, not at the claimed
`min(4, 2 - 1) = 1`. -/
theorem C1_counterexample :
    (update_stats app_sel4 (.ok [env_ok "x" "/x", env_ok "y" "/y"])).1.containers.length = 2 ∧
    (update_stats app_sel4 (.ok [env_ok "x" "/x", env_ok "y" "/y"])).1.selected_index = 4 ∧
    ¬ (update_stats app_sel4 (.ok [env_ok "x" "/x", env_ok "y" "/y"])).1.selected_index = 1 := by
  exact ⟨rfl, rfl, by decide⟩

/-- C1 (amended): `update_stats` replaces the entity list wholesale on a
successful listing (the new list depends only on the listing, not on the
old state) and leaves `selected_index` — and the quit flag — untouched on
every path; no clamping to the new bounds ever happens. -/
theorem C1_refresh_preserves_selection :
    (∀ (app : App) (r : Except String (List FetchEnv)),
        (update_stats app r).1.selected_index = app.selected_index) ∧
    (∀ (app : App) (r : Except String (List FetchEnv)),
        (update_stats app r).1.should_quit = app.should_quit) ∧
    (∀ (app : App) (envs : List FetchEnv),
        (update_stats app (.ok envs)).1.containers = (update_stats_loop [] envs).1) ∧
    (∀ (app : App) (m : String), (update_stats app (.error m)).1 = app) := by
  refine ⟨?_, ?_, ?_, ?_⟩
  · intro app r; cases r <;> rfl
  · intro app r; cases r <;> rfl
  · intro app envs; rfl
  · intro app m; rfl

/-- C2: the display name comes from the first alias with leading `/`
stripped, but an absent (or empty) names list does NOT yield an empty
display name: `names.unwrap_or_default()[0]` indexes the empty vector and
panics, so the collection aborts for a nameless entity (the `none` results
below model that panic, and running the collector over such an entity ends
in the panic failure with nothing collected). -/
theorem C2_nameless_container_panics :
    container_display_name none = none ∧
    container_display_name (some []) = none ∧
    container_display_name (some ["/web", "/alt"]) = some "web" ∧
    (update_stats App.new (.ok [env_nameless])).2 = some (.panic "index out of bounds") ∧
    (update_stats App.new (.ok [env_nameless])).1.containers = [] := by
  exact ⟨rfl, rfl, by decide, rfl, rfl⟩

/-- C7: Up decrements `selected_index` exactly when it is positive and is a
no-op at `0`; Down increments exactly when below `len - 1` and is a no-op
at the upper bound and on an empty list; repeated applications at either
edge leave the state unchanged. -/
theorem C7_navigation_bounded_idempotent :
    (∀ app : App, 0 < app.selected_index →
        applyKey app .up = { app with selected_index := app.selected_index - 1 }) ∧
    (∀ app : App, app.selected_index = 0 → applyKey app .up = app) ∧
    (∀ app : App, app.selected_index < app.containers.length - 1 →
        applyKey app .down = { app with selected_index := app.selected_index + 1 }) ∧
    (∀ app : App, ¬ app.selected_index < app.containers.length - 1 →
        applyKey app .down = app) ∧
    (∀ app : App, app.containers = [] → applyKey app .down = app) ∧
    (∀ app : App, app.selected_index = 0 →
        applyKey (applyKey app .up) .up = applyKey app .up) ∧
    (∀ app : App, app.selected_index = app.containers.length - 1 →
        applyKey (applyKey app .down) .down = applyKey app .down) := by
  have hup : ∀ app : App, app.selected_index = 0 → applyKey app .up = app := by
    intro app h
    simp [applyKey, h]
  have hdownNo : ∀ app : App, ¬ app.selected_index < app.containers.length - 1 →
      applyKey app .down = app := by
    intro app h
    simp [applyKey, h]
  refine ⟨?_, hup, ?_, hdownNo, ?_, ?_, ?_⟩
  · intro app h
    simp [applyKey, h]
  · intro app h
    simp [applyKey, h]
  · intro app h
    apply hdownNo
    rw [h]
    simp
  · intro app h
    rw [hup app h, hup app h]
  · intro app h
    have h1 : ¬ app.selected_index < app.containers.length - 1 := by omega
    rw [hdownNo app h1, hdownNo app h1]

/-- Witness for C7: on the two-container state, Up at index `0` is a no-op,
Down moves `0 → 1`, and Down at the last index `1` is a no-op. -/
theorem C7_navigation_witness :
    applyKey app_two .up = app_two ∧
    applyKey app_two .down = { app_two with selected_index := 1 } ∧
    applyKey { app_two with selected_index := 1 } .down =
      { app_two with selected_index := 1 } := by
  exact ⟨C7_navigation_bounded_idempotent.2.1 app_two rfl,
         C7_navigation_bounded_idempotent.2.2.1 app_two (by decide),
         C7_navigation_bounded_idempotent.2.2.2.1 _ (by decide)⟩

/-- C8: the renderer is a total pure function of the state; the detail pane
is exactly the (optional) lookup `containers.get(selected_index)`, so it is
rendered only when the list is non-empty, and an out-of-range
`selected_index` renders no detail pane instead of crashing. -/
theorem C8_renderer_detail_safe :
    (∀ app : App, (ui app).detail = (app.containers[app.selected_index]?).map detail_lines) ∧
    (∀ app : App, (ui app).detail.isSome = true → app.containers ≠ []) ∧
    (∀ app : App, app.containers.length ≤ app.selected_index → (ui app).detail = none) := by
  refine ⟨fun app => rfl, ?_, ?_⟩
  · intro app h hnil
    simp [ui, hnil] at h
  · intro app h
    simp [ui, List.getElem?_eq_none h]

/-- Witness for C8: a one-container state with `selected_index = 5` renders
no detail pane. -/
theorem C8_renderer_detail_safe_witness :
    (ui { containers := [dummy "a"], selected_index := 5, should_quit := false }).detail =
      none :=
  C8_renderer_detail_safe.2.2 _ (by decide)

/-- Everything the rebuild loop keeps comes from the current listing: each
record in its output was either already in the accumulator or is accounted
for by one entity of the processed list. -/
theorem update_stats_loop_mem :
    ∀ (envs : List FetchEnv) (acc : List ContainerStats) (c : ContainerStats),
      c ∈ (update_stats_loop acc envs).1 → c ∈ acc ∨ ∃ e ∈ envs, entity_yields e c := by
  intro envs
  induction envs with
  | nil => intro acc c h; exact Or.inl h
  | cons e rest ih =>
      intro acc c h
      cases hid : e.summary.id with
      | none =>
          simp only [update_stats_loop, hid] at h
          rcases ih acc c h with h1 | ⟨e', he', hy⟩
          · exact Or.inl h1
          · exact Or.inr ⟨e', List.mem_cons_of_mem _ he', hy⟩
      | some id =>
          cases hf : e.fetch with
          | error m =>
              simp only [update_stats_loop, hid, hf] at h
              exact Or.inl h
          | ok o =>
              cases o with
              | none =>
                  simp only [update_stats_loop, hid, hf] at h
                  exact Or.inl h
              | some stats =>
                  cases hb : build_container_stats id e.summary stats with
                  | error f =>
                      simp only [update_stats_loop, hid, hf, hb] at h
                      exact Or.inl h
                  | ok cs =>
                      simp only [update_stats_loop, hid, hf, hb] at h
                      rcases ih (acc ++ [cs]) c h with h1 | ⟨e', he', hy⟩
                      · rcases List.mem_append.mp h1 with h2 | h3
                        · exact Or.inl h2
                        · refine Or.inr ⟨e, List.mem_cons_self _ _, id, stats, hid, hf, ?_⟩
                          rw [List.mem_singleton.mp h3]
                          exact hb
                      · exact Or.inr ⟨e', List.mem_cons_of_mem _ he', hy⟩

/-- If the rebuild loop finishes without a failure, every entity of the
listing that had a resolvable id produced a snapshot and a record. -/
theorem update_stats_loop_success :
    ∀ (envs : List FetchEnv) (acc : List ContainerStats),
      (update_stats_loop acc envs).2 = none →
      ∀ e ∈ envs, ∀ id, e.summary.id = some id →
        ∃ stats cs, e.fetch = .ok (some stats) ∧
          build_container_stats id e.summary stats = .ok cs := by
  intro envs
  induction envs with
  | nil => intro acc _ e he; exact absurd he (List.not_mem_nil e)
  | cons e0 rest ih =>
      intro acc hnone e he id hid
      cases hid0 : e0.summary.id with
      | none =>
          simp only [update_stats_loop, hid0] at hnone
          rcases List.mem_cons.mp he with rfl | hrest
          · rw [hid0] at hid
            exact absurd hid (by simp)
          · exact ih acc hnone e hrest id hid
      | some id0 =>
          cases hf : e0.fetch with
          | error m =>
              simp only [update_stats_loop, hid0, hf] at hnone
              exact Option.noConfusion hnone
          | ok o =>
              cases o with
              | none =>
                  simp only [update_stats_loop, hid0, hf] at hnone
                  exact Option.noConfusion hnone
              | some stats =>
                  cases hb : build_container_stats id0 e0.summary stats with
                  | error f =>
                      simp only [update_stats_loop, hid0, hf, hb] at hnone
                      exact Option.noConfusion hnone
                  | ok cs =>
                      simp only [update_stats_loop, hid0, hf, hb] at hnone
                      rcases List.mem_cons.mp he with rfl | hrest
                      · have hii : id0 = id := by
                          rw [hid0] at hid
                          exact Option.some.inj hid
                        subst hii
                        exact ⟨stats, cs, hf, hb⟩
                      · exact ih _ hnone e hrest id hid

/-- C4: a failed collection aborts as a whole with a propagated error — a
listing failure leaves the state untouched, and a collection that returns
no failure fetched and built every id-bearing entity — and, on any
outcome, every record in the observable entity list is accounted for by an
entity of the current poll cycle's listing, so the list never mixes
entities from two different poll cycles. -/
theorem C4_no_partial_cross_cycle :
    (∀ (app : App) (m : String),
        update_stats app (.error m) = (app, some (.err "Failed to list containers"))) ∧
    (∀ (app : App) (envs : List FetchEnv),
        (update_stats app (.ok envs)).2 = none →
        ∀ e ∈ envs, ∀ id, e.summary.id = some id →
          ∃ stats cs, e.fetch = .ok (some stats) ∧
            build_container_stats id e.summary stats = .ok cs) ∧
    (∀ (app : App) (envs : List FetchEnv) (c : ContainerStats),
        c ∈ (update_stats app (.ok envs)).1.containers →
        ∃ e ∈ envs, entity_yields e c) := by
  refine ⟨fun app m => rfl, ?_, ?_⟩
  · intro app envs hnone
    exact update_stats_loop_success envs [] hnone
  · intro app envs c hc
    rcases update_stats_loop_mem envs [] c hc with h1 | h2
    · exact absurd h1 (List.not_mem_nil c)
    · exact h2

/-- Witness for C4: a listing failure propagates untouched, and the one
record collected from a one-entity listing is accounted for by that
entity. -/
theorem C4_no_partial_cross_cycle_witness :
    update_stats App.new (.error "boom") = (App.new, some (.err "Failed to list containers")) ∧
    ∃ e ∈ [env_ok "x" "/x"], entity_yields e
      { id := "x", name := "x", cpu_usage := 0, memory_usage := 0, memory_limit := 1
        status := "running", created := "0" } := by
  constructor
  · exact C4_no_partial_cross_cycle.1 App.new "boom"
  · exact C4_no_partial_cross_cycle.2.2 App.new [env_ok "x" "/x"] _ (by decide)

/-- C3 counterexample: a collection failure on the first tick exits `main`
through `?` with the error, and the terminal-restore block is never
reached — the terminal is NOT restored on this error exit. -/
theorem C3_counterexample_error_exit_skips_restore :
    (run_loop App.new [cycle_collect_err]).outcome =
      RunOutcome.failed (.err "Failed to list containers") App.new ∧
    (run_loop App.new [cycle_collect_err]).restored = false :=
  ⟨rfl, rfl⟩

/-- C3 (amended): the terminal-restore block runs exactly on the normal
quit exit; every error exit (failed draw, failed poll or read, failed
collection) propagates out of the loop without restoring the terminal. -/
theorem C3_restore_only_on_quit :
    ∀ (cs : List Cycle) (app : App),
      ((run_loop app cs).restored = true ↔
        ∃ a, (run_loop app cs).outcome = RunOutcome.quit a) ∧
      (∀ f a, (run_loop app cs).outcome = RunOutcome.failed f a →
        (run_loop app cs).restored = false) := by
  intro cs
  induction cs with
  | nil =>
      intro app
      constructor
      · simp [run_loop]
      · intro f a _
        rfl
  | cons c rest ih =>
      intro app
      cases hstep : loop_step app c with
      | fail f a =>
          constructor
          · simp [run_loop, hstep]
          · intro f' a' _
            simp [run_loop, hstep]
      | cont a =>
          cases hq : a.should_quit with
          | true =>
              constructor
              · simp [run_loop, hstep, hq]
              · intro f' a' h
                simp [run_loop, hstep, hq] at h
          | false =>
              have hred : run_loop app (c :: rest) = run_loop a rest := by
                simp [run_loop, hstep, hq]
              rw [hred]
              exact ih a

/-- Witness for C3: a quitting run reaches the restore block; a failing
run, that same trace property says, does not. -/
theorem C3_restore_only_on_quit_witness :
    (run_loop App.new [cycle_quit]).restored = true ∧
    (run_loop App.new [cycle_collect_err]).restored = false := by
  constructor
  · exact (C3_restore_only_on_quit [cycle_quit] App.new).1.mpr
      ⟨{ containers := [], selected_index := 0, should_quit := true }, rfl⟩
  · exact (C3_restore_only_on_quit [cycle_collect_err] App.new).2
      (.err "Failed to list containers") App.new rfl

/-- C9: `should_quit` starts false, is set by the quit key, is preserved by
every state operation (refresh, Up, Down, quit), and once an iteration's
state has it set the loop exits that iteration with the restore block run,
consuming none of the remaining trace. -/
theorem C9_should_quit_monotonic :
    App.new.should_quit = false ∧
    (∀ (app : App) (op : AppOp), app.should_quit = true →
        (applyOp app op).should_quit = true) ∧
    (∀ app : App, (applyOp app .requestQuit).should_quit = true) ∧
    (∀ (app : App) (c : Cycle) (rest : List Cycle) (a : App),
        loop_step app c = .cont a → a.should_quit = true →
        run_loop app (c :: rest) = { outcome := .quit a, restored := true }) := by
  refine ⟨rfl, ?_, ?_, ?_⟩
  · intro app op h
    cases op with
    | refresh r => cases r <;> exact h
    | moveUp =>
        simp only [applyOp, applyKey]
        split <;> exact h
    | moveDown =>
        simp only [applyOp, applyKey]
        split <;> exact h
    | requestQuit => rfl
  · intro app
    rfl
  · intro app c rest a hstep hq
    simp [run_loop, hstep, hq]

/-- Witness for C9: pressing `q` on the initial state makes that iteration
exit the loop with the quit outcome and the restore block run. -/
theorem C9_should_quit_monotonic_witness :
    run_loop App.new [cycle_quit] =
      { outcome := .quit { containers := [], selected_index := 0, should_quit := true }
        restored := true } :=
  C9_should_quit_monotonic.2.2.2 App.new cycle_quit []
    { containers := [], selected_index := 0, should_quit := true } rfl rfl

end Dockertop
